import Mathlib

/-!
Shallow embedding of the incremental optimization-formulation engine of the
LUTO2 solver (luto/solvers/solver.py, class LutoSolver), covering the
formulate / update / solve-decode lifecycle.  Numeric data is modelled with
the rational numbers; Gurobi decision variables are modelled by their values
at an arbitrary assignment, and Gurobi model mutations (addVar, addConstr,
setObjective) are modelled as explicit event traces.
-/

namespace Luto2

/-- Recognised setting value `hard` for a constraint type. -/
def hardType : String := "hard"

/-- Recognised setting value `soft` for a constraint type. -/
def softType : String := "soft"

/-- Entry of `settings.NON_AG_LAND_USES` / `NON_AG_LAND_USES_REVERSIBLE`:
one non-agricultural land use, whether it is enabled, whether reversible. -/
structure NonAgInfo where
  enabled : Bool
  reversible : Bool
deriving Repr, DecidableEq, Inhabited

/-- Entry of `settings.AG_MANAGEMENTS` together with `am2j` data: one
agricultural-management option, whether enabled, whether reversible, the
list of its eligible agricultural land uses, and whether it is the
Savanna Burning option (which receives an extra eligibility filter). -/
structure AmInfo where
  enabled : Bool
  reversible : Bool
  jList : List Nat
  isSavannaBurning : Bool
deriving Repr, DecidableEq, Inhabited

/-- The subset of `luto.settings` values that the solver module reads. -/
structure Settings where
  objective : String
  ghgConstraintType : String
  waterConstraintType : String
  waterLimits : String
  ghgEmissionsLimits : String
  gbf2 : String
  gbf3 : String
  gbf4Snes : String
  gbf4Ecnes : String
  gbf8 : String
  regionalAdoption : String
  solverWeightDemand : ℚ
  solverWeightGhg : ℚ
  solverWeightWater : ℚ
deriving Repr, DecidableEq

/-! ## Water / GHG limit-constraint shapes (C3)

`_add_water_usage_limit_constraints` and `_add_ghg_emissions_limit_constraints`
build, per target, linear constraints relating the value of the aggregate
expression (net water yield of a region, total GHG emissions), the rescaled
limit, and the penalty variable (an entry of W, or E).  `LimitRel` records
the shape of one such constraint, and `LimitRel.holdsAt` its meaning at a
point (a = aggregate value, l = limit, p = penalty-variable value). -/

/-- Shape of a single limit constraint over (aggregate, limit, penalty). -/
inductive LimitRel
  | aggGeLimit
  | aggLeLimit
  | devAboveLeP
  | devBelowLeP
deriving Repr, DecidableEq

/-- Meaning of a limit constraint at aggregate value `a`, limit `l`,
penalty-variable value `p`. -/
def LimitRel.holdsAt (a l p : ℚ) : LimitRel → Prop
  | .aggGeLimit => l ≤ a
  | .aggLeLimit => a ≤ l
  | .devAboveLeP => a - l ≤ p
  | .devBelowLeP => l - a ≤ p

instance (a l p : ℚ) (c : LimitRel) : Decidable (c.holdsAt a l p) := by
  cases c <;> · simp only [LimitRel.holdsAt]; infer_instance

/-- Constraints added for one water region by
`_add_water_usage_limit_constraints` (solver.py lines 690-705): for `hard`
a single `net yield >= limit`; for `soft` a single
`limit - net yield <= W[reg_idx - 1]`; anything else raises. -/
def waterRegionConstrForms (ctype : String) : List LimitRel :=
  if ctype = hardType then [LimitRel.aggGeLimit]
  else if ctype = softType then [LimitRel.devBelowLeP]
  else []

/-- Constraints added by `_add_ghg_emissions_limit_constraints`
(solver.py lines 774-797): for `hard` a single `emissions <= limit`; for
`soft` the pair `emissions - limit <= E` and `limit - emissions <= E`;
anything else raises. -/
def ghgConstrForms (ctype : String) : List LimitRel :=
  if ctype = hardType then [LimitRel.aggLeLimit]
  else if ctype = softType then [LimitRel.devAboveLeP, LimitRel.devBelowLeP]
  else []

/-! ## Python indexing of the water penalty vector W (C9)

In the soft water branch the constraint for the region whose limits key is
`reg_idx` references `self.W[reg_idx - 1]`, where `W` was created with
`num_regions = len(limits["water"].keys())` entries.  `pythonIdx` models
Python / numpy integer indexing into a sequence of length `n`: indices in
`[0, n)` are used directly, indices in `[-n, 0)` wrap to `n + i`, anything
else raises IndexError. -/

/-- Python sequence indexing: index `i` into length `n`; `none` = IndexError. -/
def pythonIdx (i : ℤ) (n : ℕ) : Option ℕ :=
  if 0 ≤ i ∧ i < (n : ℤ) then some i.toNat
  else if -(n : ℤ) ≤ i ∧ i < 0 then some ((n : ℤ) + i).toNat
  else none

/-- The W entry referenced for the region with limits-dictionary key
`regIdx`, with `numRegions = len(limits["water"].keys())`:
the code evaluates `W[regIdx - 1]`. -/
def waterSlot (regIdx : ℤ) (numRegions : ℕ) : Option ℕ :=
  pythonIdx (regIdx - 1) numRegions

/-- The reference `W[regIdx - 1]` is in bounds without negative wrap-around. -/
def strictIdxOk (regIdx : ℤ) (n : ℕ) : Prop :=
  0 ≤ regIdx - 1 ∧ regIdx - 1 < (n : ℤ)

instance (regIdx : ℤ) (n : ℕ) : Decidable (strictIdxOk regIdx n) := by
  unfold strictIdxOk; infer_instance

/-! ## Objective-value breakdown returned by solve (C10)

`LutoSolver.solve` (solver.py lines 1655-1664) builds the `obj_val`
dictionary: the `ObjVal` entry is `None` unless the Gurobi status is
`GRB.OPTIMAL` (= 2), while the per-component entries are always evaluated
from the stored objective expressions. -/

/-- Gurobi status code `GRB.OPTIMAL`. -/
def GRB_OPTIMAL : ℕ := 2

/-- Inputs of the `obj_val` computation: the solver status, the model
objective value, the values of the stored economy / biodiversity / penalty
objective expressions at the solution, and the alpha / beta weights. -/
structure SolveOutcome where
  status : ℕ
  modelObjVal : ℚ
  economyVal : ℚ
  biodivVal : ℚ
  penaltiesVal : ℚ
  alpha : ℚ
  beta : ℚ
deriving Repr, DecidableEq

/-- The overall and per-component objective entries of `obj_val`. -/
structure ObjValBreakdown where
  objVal : Option ℚ
  objEconomy : ℚ
  objBiodiversity : ℚ
  objPenalties : ℚ
deriving Repr, DecidableEq

/-- The `obj_val` entries built at the end of `LutoSolver.solve`. -/
def objValEntries (o : SolveOutcome) : ObjValBreakdown :=
  { objVal := if o.status = GRB_OPTIMAL then some o.modelObjVal else none
  , objEconomy := o.economyVal * o.alpha
  , objBiodiversity := o.biodivVal * (1 - o.alpha)
  , objPenalties := o.penaltiesVal * o.beta }

/-! ## Penalty objective (C5)

`_setup_penalty_objectives` (solver.py lines 402-441) builds the penalty
term from the demand deviation vector V (always), the GHG deviation scalar
E (only when `GHG_CONSTRAINT_TYPE == "soft"`), and the water deviation
vector W (only when `WATER_CONSTRAINT_TYPE == "soft"`), and divides the
sum by the sum of active weights. -/

/-- Input data of the penalty objective: values of the deviation variables
V, E, W at an assignment, the rescaling factors, the base-year commodity
prices, and the base-year GHG emissions and total water use normalisers. -/
structure PenaltyData where
  ncms : ℕ
  vVals : ℕ → ℚ
  eVal : ℚ
  wVals : ℕ → ℚ
  nWaterRegions : ℕ
  scaleDemand : ℚ
  scaleGhg : ℚ
  scaleWater : ℚ
  basePrices : ℕ → ℚ
  baseGhg : ℚ
  baseWater : ℚ

/-- `penalty_demand`: the demand deviations priced at base-year commodity
prices, weighted, converted to million AUD. -/
def penaltyDemand (s : Settings) (p : PenaltyData) : ℚ :=
  (((List.range p.ncms).map fun c => p.vVals c * p.scaleDemand * p.basePrices c).sum)
    * s.solverWeightDemand / 1000000

/-- `weight_ghg`: zero unless the GHG constraint type is soft. -/
def weightGhg (s : Settings) : ℚ :=
  if s.ghgConstraintType = softType then s.solverWeightGhg else 0

/-- `penalty_ghg`: the GHG deviation normalised against the base-year
emissions figure, plus one; zero when the GHG target is not soft. -/
def penaltyGhg (s : Settings) (p : PenaltyData) : ℚ :=
  if s.ghgConstraintType = softType then
    p.eVal * p.scaleGhg * s.solverWeightGhg / p.baseGhg + 1
  else 0

/-- `weight_water`: zero unless the water constraint type is soft. -/
def weightWater (s : Settings) : ℚ :=
  if s.waterConstraintType = softType then s.solverWeightWater else 0

/-- `penalty_water`: the summed water deviations normalised against
base-year water use, plus one, averaged over the water regions; zero when
the water target is not soft. -/
def penaltyWater (s : Settings) (p : PenaltyData) : ℚ :=
  if s.waterConstraintType = softType then
    (((List.range p.nWaterRegions).map fun i => p.wVals i).sum
      * p.scaleWater * s.solverWeightWater / p.baseWater + 1) / (p.nWaterRegions : ℚ)
  else 0

/-- `_setup_penalty_objectives`: the combined penalty term. -/
def penaltyObjectives (s : Settings) (p : PenaltyData) : ℚ :=
  (penaltyDemand s p + penaltyGhg s p + penaltyWater s p)
    / (s.solverWeightDemand + weightGhg s + weightWater s)

/-! ## Demand-balance constraints (C6)

`_add_demand_penalty_constraints` (solver.py lines 535-618) sums
agricultural, management-option and non-agricultural production into a
per-commodity total through the `lu2pr` and `pr2cm` incidence matrices and
adds, per commodity c, the constraint
`total_q_exprs_c[c] - limits["demand_rescale"][c] == V[c]`, where V was
created with lower bound 0 in `_setup_deviation_penalties`. -/

/-- Data of the demand family: dimensions, incidence matrices, production
coefficients, land-use metadata, and the values of the allocation
variables at an assignment (absent variables have value zero). -/
structure DemandData where
  ncells : ℕ
  nAgLus : ℕ
  nprs : ℕ
  ncms : ℕ
  nonAgLus : List NonAgInfo
  ams : List AmInfo
  lu2pr : ℕ → ℕ → Bool
  pr2cm : ℕ → ℕ → Bool
  agQmrp : ℕ → ℕ → ℕ → ℚ
  agManQmrp : ℕ → ℕ → ℕ → ℕ → ℚ
  nonAgQcrk : ℕ → ℕ → ℕ → ℚ
  xAgDry : ℕ → ℕ → ℚ
  xAgIrr : ℕ → ℕ → ℚ
  xAgManDry : ℕ → ℕ → ℕ → ℚ
  xAgManIrr : ℕ → ℕ → ℕ → ℚ
  xNonAg : ℕ → ℕ → ℚ

/-- Production of product p by agricultural land use j (`ag_q_p`). -/
def agQp (d : DemandData) (j p : ℕ) : ℚ :=
  ((List.range d.ncells).map fun r => d.agQmrp 0 r p * d.xAgDry j r).sum
  + ((List.range d.ncells).map fun r => d.agQmrp 1 r p * d.xAgIrr j r).sum

/-- `ag_q_c[c]`: agricultural production of commodity c, mapped through
the `lu2pr` and `pr2cm` incidence matrices. -/
def agQc (d : DemandData) (c : ℕ) : ℚ :=
  ((List.range d.nAgLus).map fun j =>
    ((List.range d.nprs).map fun p =>
      if d.lu2pr p j && d.pr2cm c p then agQp d j p else 0).sum).sum

/-- Production of product p by management option a on land use j. -/
def agManQp (d : DemandData) (a j p : ℕ) : ℚ :=
  ((List.range d.ncells).map fun r => d.agManQmrp a 0 r p * d.xAgManDry a j r).sum
  + ((List.range d.ncells).map fun r => d.agManQmrp a 1 r p * d.xAgManIrr a j r).sum

/-- `ag_man_q_c[c]`: management-option production of commodity c (only
enabled options contribute). -/
def agManQc (d : DemandData) (c : ℕ) : ℚ :=
  ((List.range d.ams.length).map fun a =>
    if (d.ams.getD a default).enabled then
      (((d.ams.getD a default).jList).map fun j =>
        ((List.range d.nprs).map fun p =>
          if d.lu2pr p j && d.pr2cm c p then agManQp d a j p else 0).sum).sum
    else 0).sum

/-- `non_ag_q_c[c]`: non-agricultural production of commodity c (only
enabled non-agricultural land uses contribute). -/
def nonAgQc (d : DemandData) (c : ℕ) : ℚ :=
  ((List.range d.nonAgLus.length).map fun k =>
    if (d.nonAgLus.getD k default).enabled then
      ((List.range d.ncells).map fun r => d.nonAgQcrk c r k * d.xNonAg k r).sum
    else 0).sum

/-- `total_q_exprs_c[c]`: total production of commodity c. -/
def totalQc (d : DemandData) (c : ℕ) : ℚ :=
  agQc d c + agManQc d c + nonAgQc d c

/-- The demand constraint added for commodity c, at deviation value `v`:
`total_q_exprs_c[c] - limits["demand_rescale"][c] == V[c]`. -/
def demandPenaltyConstraint (d : DemandData) (c : ℕ) (target v : ℚ) : Prop :=
  totalQc d c - target = v

/-- Lower bound of each demand deviation variable V[c]
(`addMVar(ncms, lb=0)`). -/
def deviationVarLb : ℚ := 0

/-- Joint feasibility of the commodity-c demand constraint and the bound
on its deviation variable. -/
def demandFamilyFeasible (d : DemandData) (c : ℕ) (target v : ℚ) : Prop :=
  demandPenaltyConstraint d c target v ∧ deviationVarLb ≤ v

/-! ## Solution decoding (C7, C8)

`LutoSolver.solve` reads the solved variable values into dense arrays,
classifies each cell as non-agricultural iff its best non-agricultural
value strictly exceeds its best agricultural value
(`non_ag_X_sol_rk.max(axis=1) > ag_X_mrj.max(axis=(0, 2))`), zeroes the
agricultural rows of the processed array for non-agricultural cells, and
builds the land-use / land-management maps.  The returned `non_ag_X_rk`
field is the raw `non_ag_X_sol_rk` array. -/

/-- numpy max along an axis: maximum of a list of values (the code never
takes a maximum over an empty axis in a well-formed input). -/
def aggMaxQ : List ℚ → ℚ
  | [] => 0
  | x :: xs => xs.foldl max x

/-- numpy argmax: index of the first occurrence of the maximum. -/
def argmaxFirst (l : List ℚ) : ℕ := l.indexOf (aggMaxQ l)

/-- Solved variable values read back from the model: `X_dry_sol_rj`,
`X_irr_sol_rj` and `non_ag_X_sol_rk`, indexed cell-major as in the code. -/
structure SolveArrays where
  ncells : ℕ
  nAgLus : ℕ
  nNonAg : ℕ
  agDry : ℕ → ℕ → ℚ
  agIrr : ℕ → ℕ → ℚ
  nonAg : ℕ → ℕ → ℚ

/-- `ag_X_mrj.max(axis=(0, 2))` at cell r: the best agricultural value
across both land managements and all agricultural land uses. -/
def maxAgCell (a : SolveArrays) (r : ℕ) : ℚ :=
  aggMaxQ (((List.range a.nAgLus).map fun j => a.agDry r j)
    ++ ((List.range a.nAgLus).map fun j => a.agIrr r j))

/-- `non_ag_X_sol_rk.max(axis=1)` at cell r: the best non-agricultural
value. -/
def maxNonAgCell (a : SolveArrays) (r : ℕ) : ℚ :=
  aggMaxQ ((List.range a.nNonAg).map fun k => a.nonAg r k)

/-- `non_ag_bools_r[r]`: cell r is classified non-agricultural iff its best
non-agricultural value strictly exceeds its best agricultural value. -/
def nonAgBool (a : SolveArrays) (r : ℕ) : Bool :=
  decide (maxAgCell a r < maxNonAgCell a r)

/-- The processed agricultural array `ag_X_mrj_processed` after the
statement `ag_X_mrj_processed[:, non_ag_bools_r, :] = False`: agricultural
entries of non-agricultural cells are zeroed. -/
def agXProcessed (a : SolveArrays) (m r j : ℕ) : ℚ :=
  if nonAgBool a r then 0
  else if m = 0 then a.agDry r j else a.agIrr r j

/-- The `ag_X_mrj` field of the returned `SolverSolution`
(= `ag_X_mrj_processed`). -/
def returnedAgX (a : SolveArrays) (m r j : ℕ) : ℚ := agXProcessed a m r j

/-- The `non_ag_X_rk` field of the returned `SolverSolution`: the raw
`non_ag_X_sol_rk` array (the zeroed copy `non_ag_X_rk_processed` is not
what is returned). -/
def returnedNonAgX (a : SolveArrays) (r k : ℕ) : ℚ := a.nonAg r k

/-- Agricultural-branch land-use map entry:
`ag_X_mrj_processed.sum(axis=0).argmax(axis=1)` at cell r. -/
def lumapAg (a : SolveArrays) (r : ℕ) : ℕ :=
  argmaxFirst ((List.range a.nAgLus).map fun j =>
    agXProcessed a 0 r j + agXProcessed a 1 r j)

/-- Agricultural-branch land-management map entry:
`ag_X_mrj_processed.sum(axis=2).argmax(axis=0)` at cell r. -/
def lmmapAg (a : SolveArrays) (r : ℕ) : ℕ :=
  argmaxFirst
    [((List.range a.nAgLus).map fun j => agXProcessed a 0 r j).sum,
     ((List.range a.nAgLus).map fun j => agXProcessed a 1 r j).sum]

/-- Decoded land-use map: non-agricultural cells get the arg-max
non-agricultural use plus the base code
(`settings.NON_AGRICULTURAL_LU_BASE_CODE`, passed as `base`). -/
def decodeLumap (a : SolveArrays) (base r : ℕ) : ℕ :=
  if nonAgBool a r then
    argmaxFirst ((List.range a.nNonAg).map fun k => a.nonAg r k) + base
  else lumapAg a r

/-- Decoded land-management map: non-agricultural cells are assigned
dryland (`lmmap[non_ag_bools_r] = 0`). -/
def decodeLmmap (a : SolveArrays) (r : ℕ) : ℕ :=
  if nonAgBool a r then 0 else lmmapAg a r

/-! ## Biodiversity target builds (C4)

`_add_GBF4_snes_constraints` and `_add_GBF4_ecnes_constraints` compute the
eligible-cell index set of each target layer as `np.where(layer > 0)[0]`
and, when it is empty, print a warning and `continue` without adding a
constraint.  `_add_GBF8_constraints` takes its per-species index sets from
the input data and adds a constraint for every species with no emptiness
check. -/

/-- Outcome of building one biodiversity target. -/
inductive TargetOutcome
  | constraintAdded
  | skippedWarning
deriving Repr, DecidableEq

/-- `np.where(layer > 0)[0]` over `ncells` cells. -/
def gbf4IndexSet (ncells : ℕ) (layer : ℕ → ℚ) : List ℕ :=
  (List.range ncells).filter fun r => decide (0 < layer r)

/-- Per-target outcomes of `_add_GBF4_snes_constraints` (lines 946-1009):
a target with an empty eligible-cell index set is skipped with a warning;
otherwise its constraint is added. -/
def gbf4SnesOutcomes (ncells : ℕ) (layers : List (ℕ → ℚ)) : List TargetOutcome :=
  layers.map fun layer =>
    if gbf4IndexSet ncells layer = [] then TargetOutcome.skippedWarning
    else TargetOutcome.constraintAdded

/-- Per-target outcomes of `_add_GBF4_ecnes_constraints` (lines 1011-1075),
identical in structure to the SNES build. -/
def gbf4EcnesOutcomes (ncells : ℕ) (layers : List (ℕ → ℚ)) : List TargetOutcome :=
  layers.map fun layer =>
    if gbf4IndexSet ncells layer = [] then TargetOutcome.skippedWarning
    else TargetOutcome.constraintAdded

/-- Per-species outcomes of `_add_GBF8_constraints` (lines 1078-1141): a
constraint is added for every species, with no emptiness check on the
species index set. -/
def gbf8Outcomes (speciesIndices : List (List ℕ)) : List TargetOutcome :=
  speciesIndices.map fun _ => TargetOutcome.constraintAdded

/-! ## Incremental update (C1)

`update_formulation` (solver.py lines 1170-1204) updates the variables
cell by cell, updates the constraints from the list of changed cells, and
always recomposes the objective.  `_update_variables` (lines 1206-1351)
skips a cell when its land use, land management, eligibility slices and
non-reversible lower-bound slices are all unchanged.
`_update_constraints` (lines 1353-1420) returns immediately when no cell
changed; otherwise it removes the cell-scoped constraints of the changed
cells and removes and re-adds every aggregate constraint family. -/

/-- Data consulted by the per-cell skip test of `_update_variables`:
previous and current land-use / land-management maps, eligibility arrays,
and lower-bound arrays, plus the land-use and management-option metadata
that selects which slices are compared. -/
structure UpdateData where
  ncells : ℕ
  nAgLus : ℕ
  nonAgLus : List NonAgInfo
  ams : List AmInfo
  oldLumap : ℕ → ℤ
  currentLumap : ℕ → ℤ
  oldLmmap : ℕ → ℤ
  currentLmmap : ℕ → ℤ
  oldAgX : ℕ → ℕ → ℕ → Bool
  newAgX : ℕ → ℕ → ℕ → Bool
  oldNonAgX : ℕ → ℕ → ℚ
  newNonAgX : ℕ → ℕ → ℚ
  oldNonAgLb : ℕ → ℕ → ℚ
  newNonAgLb : ℕ → ℕ → ℚ
  oldAgManLb : ℕ → ℕ → ℕ → ℕ → ℚ
  newAgManLb : ℕ → ℕ → ℕ → ℕ → ℚ

/-- The skip condition of `_update_variables` (lines 1231-1246) for cell
r: land use, land management, the full agricultural eligibility slice, the
non-agricultural eligibility row, the non-reversible non-agricultural
lower-bound entries, and the non-reversible enabled management-option
lower-bound slices are all unchanged. -/
def cellUnchanged (d : UpdateData) (r : ℕ) : Bool :=
  d.oldLumap r == d.currentLumap r
  && d.oldLmmap r == d.currentLmmap r
  && ((List.range 2).all fun m =>
        (List.range d.nAgLus).all fun j => d.oldAgX m r j == d.newAgX m r j)
  && ((List.range d.nonAgLus.length).all fun k =>
        d.oldNonAgX r k == d.newNonAgX r k)
  && ((List.range d.nonAgLus.length).all fun k =>
        (d.nonAgLus.getD k default).reversible
        || d.oldNonAgLb r k == d.newNonAgLb r k)
  && ((List.range d.ams.length).all fun a =>
        let am := d.ams.getD a default
        !(am.enabled && !am.reversible)
        || ((List.range 2).all fun m =>
              (List.range d.nAgLus).all fun j =>
                d.oldAgManLb a m r j == d.newAgManLb a m r j))

/-- `updated_cells`: the cells whose variables `_update_variables` removes
and recreates. -/
def updatedCells (d : UpdateData) : List ℕ :=
  (List.range d.ncells).filter fun r => !cellUnchanged d r

/-- Observable effect of one `update_formulation` call: which cells had
variables removed and recreated, which cells had their cell-scoped
constraints (cell usage, eligibility coupling) removed and recreated,
whether the aggregate constraint families were removed and recreated, and
whether the objective was recomposed. -/
structure UpdateEffect where
  removedVarCells : List ℕ
  removedCellConstraintCells : List ℕ
  aggregateFamiliesRebuilt : Bool
  objectiveRebuilt : Bool
deriving Repr, DecidableEq

/-- `_update_constraints`: returns immediately when `updated_cells` is
empty; otherwise removes and recreates the cell-scoped constraints of the
changed cells and every aggregate constraint family. -/
def updateConstraintsEffect (cells : List ℕ) : List ℕ × Bool :=
  if cells.isEmpty then ([], false) else (cells, true)

/-- `update_formulation`: variable update, constraint update, and an
unconditional objective recomposition. -/
def updateFormulationEffect (d : UpdateData) : UpdateEffect :=
  { removedVarCells := updatedCells d
  , removedCellConstraintCells := (updateConstraintsEffect (updatedCells d)).1
  , aggregateFamiliesRebuilt := (updateConstraintsEffect (updatedCells d)).2
  , objectiveRebuilt := true }

/-! ## Formulate as a trace of model mutations (C2)

`LutoSolver.formulate` runs `_setup_vars`, `_setup_constraints`,
`_setup_objective` in that order.  Each Gurobi mutation (`addVar`,
`addMVar` entry, `addConstr`, `setObjective`) is recorded as an event;
an unrecognised configuration value raises at the point the code reaches
it, aborting the remaining steps. -/

/-- One Gurobi model mutation. -/
inductive ModelEvent
  | addVar
  | addConstr
  | setObjective
deriving Repr, DecidableEq

/-- A fatal configuration error (`raise ValueError`). -/
inductive ConfigError
  | unknownObjective
  | unknownWaterConstraintType
  | unknownGhgConstraintType
deriving Repr, DecidableEq

/-- Input data consumed by `formulate`, at the granularity the event trace
needs: eligible-cell lists per land use, land-use and management metadata,
water-region limit keys, biodiversity layers and limits, and
regional-adoption limit counts. -/
structure FormulateData where
  ncells : ℕ
  nAgLus : ℕ
  ncms : ℕ
  agLu2cells : ℕ → ℕ → List ℕ
  nonAgLus : List NonAgInfo
  nonAgLu2cells : ℕ → List ℕ
  ams : List AmInfo
  savannaEligible : List ℕ
  waterRawKeys : List ℤ
  waterRescaleKeys : List ℤ
  gbf3Limits : List ℚ
  gbf3Scale : ℚ
  gbf4SnesLayers : List (ℕ → ℚ)
  gbf4EcnesLayers : List (ℕ → ℚ)
  gbf8Indices : List (List ℕ)
  nAgRegionalLimits : ℕ
  nNonAgRegionalLimits : ℕ

/-- `_setup_ag_vars`: one variable per eligible (management, land use,
cell) triple. -/
def setupAgVarsEvents (d : FormulateData) : List ModelEvent :=
  (List.range d.nAgLus).flatMap fun j =>
    ((d.agLu2cells 0 j).map fun _ => ModelEvent.addVar)
    ++ ((d.agLu2cells 1 j).map fun _ => ModelEvent.addVar)

/-- `_setup_non_ag_vars`: one variable per eligible cell of each enabled
non-agricultural land use. -/
def setupNonAgVarsEvents (d : FormulateData) : List ModelEvent :=
  (List.range d.nonAgLus.length).flatMap fun k =>
    if (d.nonAgLus.getD k default).enabled then
      (d.nonAgLu2cells k).map fun _ => ModelEvent.addVar
    else []

/-- `_setup_ag_management_variables`: variables per enabled option and
eligible cell; for Savanna Burning the dryland cells are intersected with
the savanna-eligible cells. -/
def setupAgManVarsEvents (d : FormulateData) : List ModelEvent :=
  d.ams.flatMap fun am =>
    if am.enabled then
      am.jList.flatMap fun j =>
        let dryCells :=
          if am.isSavannaBurning then
            (d.agLu2cells 0 j).filter fun r => d.savannaEligible.contains r
          else d.agLu2cells 0 j
        (dryCells.map fun _ => ModelEvent.addVar)
        ++ ((d.agLu2cells 1 j).map fun _ => ModelEvent.addVar)
    else []

/-- `_setup_deviation_penalties`: V (one entry per commodity, always), E
(GHG soft only), W (water soft only, one entry per key of
`limits["water"]`). -/
def setupDeviationPenaltiesEvents (s : Settings) (d : FormulateData) : List ModelEvent :=
  ((List.range d.ncms).map fun _ => ModelEvent.addVar)
  ++ (if s.ghgConstraintType = softType then [ModelEvent.addVar] else [])
  ++ (if s.waterConstraintType = softType then
        d.waterRawKeys.map fun _ => ModelEvent.addVar
      else [])

/-- `_setup_vars`: the four variable-creation steps in order. -/
def setupVarsEvents (s : Settings) (d : FormulateData) : List ModelEvent :=
  setupAgVarsEvents d ++ setupNonAgVarsEvents d ++ setupAgManVarsEvents d
  ++ setupDeviationPenaltiesEvents s d

/-- `_add_cell_usage_constraints` on a full build: one constraint per
cell. -/
def cellUsageEvents (d : FormulateData) : List ModelEvent :=
  (List.range d.ncells).map fun _ => ModelEvent.addConstr

/-- `_add_agricultural_management_constraints` on a full build: one
coupling constraint per (option, land use, eligible cell, management). -/
def agManagementEvents (d : FormulateData) : List ModelEvent :=
  d.ams.flatMap fun am =>
    am.jList.flatMap fun j =>
      ((d.agLu2cells 0 j) ++ (d.agLu2cells 1 j)).map fun _ => ModelEvent.addConstr

/-- `_add_agricultural_management_adoption_limit_constraints`: one
constraint per (option, land use). -/
def adoptionLimitEvents (d : FormulateData) : List ModelEvent :=
  d.ams.flatMap fun am => am.jList.map fun _ => ModelEvent.addConstr

/-- `_add_demand_penalty_constraints`: one constraint per commodity. -/
def demandPenaltyEvents (d : FormulateData) : List ModelEvent :=
  (List.range d.ncms).map fun _ => ModelEvent.addConstr

/-- `_add_ghg_emissions_limit_constraints`: nothing when GHG limits are
off; one constraint when hard; two when soft; a raise otherwise. -/
def addGhgEvents (s : Settings) : List ModelEvent × Option ConfigError :=
  if s.ghgEmissionsLimits = "off" then ([], none)
  else if s.ghgConstraintType = hardType then ([ModelEvent.addConstr], none)
  else if s.ghgConstraintType = softType then
    ([ModelEvent.addConstr, ModelEvent.addConstr], none)
  else ([], some ConfigError.unknownGhgConstraintType)

/-- `_add_GBF2_constraints`: one constraint unless turned off. -/
def gbf2Events (s : Settings) : List ModelEvent :=
  if s.gbf2 = "off" then [] else [ModelEvent.addConstr]

/-- `_add_GBF3_major_vegetation_group_limit_constraints`: one constraint
per vegetation group whose raw target is nonzero, unless turned off. -/
def gbf3Events (s : Settings) (d : FormulateData) : List ModelEvent :=
  if s.gbf3 = "off" then []
  else d.gbf3Limits.flatMap fun l =>
    if l * d.gbf3Scale = 0 then [] else [ModelEvent.addConstr]

/-- `_add_GBF4_snes_constraints` as events: one constraint per
non-skipped target. -/
def gbf4SnesEvents (s : Settings) (d : FormulateData) : List ModelEvent :=
  if s.gbf4Snes ≠ "on" then []
  else (gbf4SnesOutcomes d.ncells d.gbf4SnesLayers).flatMap fun o =>
    match o with
    | TargetOutcome.constraintAdded => [ModelEvent.addConstr]
    | TargetOutcome.skippedWarning => []

/-- `_add_GBF4_ecnes_constraints` as events. -/
def gbf4EcnesEvents (s : Settings) (d : FormulateData) : List ModelEvent :=
  if s.gbf4Ecnes ≠ "on" then []
  else (gbf4EcnesOutcomes d.ncells d.gbf4EcnesLayers).flatMap fun o =>
    match o with
    | TargetOutcome.constraintAdded => [ModelEvent.addConstr]
    | TargetOutcome.skippedWarning => []

/-- `_add_GBF8_constraints` as events: one constraint per species. -/
def gbf8Events (s : Settings) (d : FormulateData) : List ModelEvent :=
  if s.gbf8 ≠ "on" then []
  else (gbf8Outcomes d.gbf8Indices).map fun _ => ModelEvent.addConstr

/-- `_add_regional_adoption_constraints`: one constraint per agricultural
and per non-agricultural regional limit, unless turned off. -/
def regionalAdoptionEvents (s : Settings) (d : FormulateData) : List ModelEvent :=
  if s.regionalAdoption ≠ "on" then []
  else ((List.range d.nAgRegionalLimits).map fun _ => ModelEvent.addConstr)
    ++ ((List.range d.nNonAgRegionalLimits).map fun _ => ModelEvent.addConstr)

/-- The per-region loop of `_add_water_usage_limit_constraints`: each
region adds one constraint (hard or soft); an unrecognised constraint type
raises on the first region reached. -/
def addWaterEventsLoop (s : Settings) : List ℤ → List ModelEvent × Option ConfigError
  | [] => ([], none)
  | _ :: ks =>
    if s.waterConstraintType = hardType ∨ s.waterConstraintType = softType then
      let rest := addWaterEventsLoop s ks
      (ModelEvent.addConstr :: rest.1, rest.2)
    else ([], some ConfigError.unknownWaterConstraintType)

/-- `_add_water_usage_limit_constraints`: nothing when water limits are
not on; otherwise the per-region loop over the keys of
`limits["water_rescale"]`. -/
def addWaterEvents (s : Settings) (d : FormulateData) : List ModelEvent × Option ConfigError :=
  if s.waterLimits ≠ "on" then ([], none)
  else addWaterEventsLoop s d.waterRescaleKeys

/-- `_setup_objective`: builds the economy, biodiversity and penalty
expressions (no model mutation), then either sets the objective or raises
on an unrecognised objective sense, before calling `setObjective`. -/
def setupObjectiveStep (s : Settings) : List ModelEvent × Option ConfigError :=
  if s.objective = "mincost" ∨ s.objective = "maxprofit" then
    ([ModelEvent.setObjective], none)
  else ([], some ConfigError.unknownObjective)

/-- Run a list of steps in order, stopping at the first raised error; the
returned event list contains every mutation applied before the error. -/
def seqSteps : List (List ModelEvent × Option ConfigError) → List ModelEvent × Option ConfigError
  | [] => ([], none)
  | st :: rest =>
    match st.2 with
    | some e => (st.1, some e)
    | none =>
      let r := seqSteps rest
      (st.1 ++ r.1, r.2)

/-- `LutoSolver.formulate`: variables, then the constraint families in the
order of `_setup_constraints` (cell usage, management coupling, adoption
limits, demand, GHG, biodiversity, regional adoption, water), then the
objective. -/
def formulateRun (s : Settings) (d : FormulateData) : List ModelEvent × Option ConfigError :=
  seqSteps
    [ (setupVarsEvents s d, none)
    , (cellUsageEvents d, none)
    , (agManagementEvents d, none)
    , (adoptionLimitEvents d, none)
    , (demandPenaltyEvents d, none)
    , addGhgEvents s
    , (gbf2Events s, none)
    , (gbf3Events s d, none)
    , (gbf4SnesEvents s d, none)
    , (gbf4EcnesEvents s d, none)
    , (gbf8Events s d, none)
    , (regionalAdoptionEvents s d, none)
    , addWaterEvents s d
    , setupObjectiveStep s ]

/-! ## Concrete instances used for counterexamples and witnesses -/

/-- A one-cell update input in which nothing changed between years. -/
def noChangeData : UpdateData :=
  { ncells := 1
  , nAgLus := 1
  , nonAgLus := [{ enabled := true, reversible := false }]
  , ams := [{ enabled := true, reversible := false, jList := [0], isSavannaBurning := false }]
  , oldLumap := fun _ => 0
  , currentLumap := fun _ => 0
  , oldLmmap := fun _ => 0
  , currentLmmap := fun _ => 0
  , oldAgX := fun _ _ _ => true
  , newAgX := fun _ _ _ => true
  , oldNonAgX := fun _ _ => 1
  , newNonAgX := fun _ _ => 1
  , oldNonAgLb := fun _ _ => 0
  , newNonAgLb := fun _ _ => 0
  , oldAgManLb := fun _ _ _ _ => 0
  , newAgManLb := fun _ _ _ _ => 0 }

/-- Settings with an unrecognised objective sense and every optional
constraint family disabled. -/
def badSenseSettings : Settings :=
  { objective := "minimise"
  , ghgConstraintType := "hard"
  , waterConstraintType := "hard"
  , waterLimits := "off"
  , ghgEmissionsLimits := "off"
  , gbf2 := "off"
  , gbf3 := "off"
  , gbf4Snes := "off"
  , gbf4Ecnes := "off"
  , gbf8 := "off"
  , regionalAdoption := "off"
  , solverWeightDemand := 1
  , solverWeightGhg := 1
  , solverWeightWater := 1 }

/-- Settings with recognised values and soft GHG and water targets. -/
def softSettings : Settings :=
  { objective := "mincost"
  , ghgConstraintType := "soft"
  , waterConstraintType := "soft"
  , waterLimits := "on"
  , ghgEmissionsLimits := "on"
  , gbf2 := "off"
  , gbf3 := "off"
  , gbf4Snes := "on"
  , gbf4Ecnes := "on"
  , gbf8 := "on"
  , regionalAdoption := "off"
  , solverWeightDemand := 1
  , solverWeightGhg := 1
  , solverWeightWater := 1 }

/-- A one-cell, one-land-use, one-commodity formulate input. -/
def smallFormulateData : FormulateData :=
  { ncells := 1
  , nAgLus := 1
  , ncms := 1
  , agLu2cells := fun m j => if m == 0 && j == 0 then [0] else []
  , nonAgLus := []
  , nonAgLu2cells := fun _ => []
  , ams := []
  , savannaEligible := []
  , waterRawKeys := []
  , waterRescaleKeys := []
  , gbf3Limits := []
  , gbf3Scale := 1
  , gbf4SnesLayers := []
  , gbf4EcnesLayers := []
  , gbf8Indices := []
  , nAgRegionalLimits := 0
  , nNonAgRegionalLimits := 0 }

/-- A demand input whose total production of commodity 0 is zero. -/
def smallDemandData : DemandData :=
  { ncells := 1
  , nAgLus := 1
  , nprs := 1
  , ncms := 1
  , nonAgLus := []
  , ams := []
  , lu2pr := fun _ _ => true
  , pr2cm := fun _ _ => true
  , agQmrp := fun _ _ _ => 0
  , agManQmrp := fun _ _ _ _ => 0
  , nonAgQcrk := fun _ _ _ => 0
  , xAgDry := fun _ _ => 0
  , xAgIrr := fun _ _ => 0
  , xAgManDry := fun _ _ _ => 0
  , xAgManIrr := fun _ _ _ => 0
  , xNonAg := fun _ _ => 0 }

/-- Solved values for one cell whose best agricultural value (3/5) beats
its best non-agricultural value (2/5): the cell is agricultural. -/
def tieArrays : SolveArrays :=
  { ncells := 1
  , nAgLus := 1
  , nNonAg := 1
  , agDry := fun _ _ => 3/5
  , agIrr := fun _ _ => 0
  , nonAg := fun _ _ => 2/5 }

/-- Solved values for one cell whose best non-agricultural value (7/10)
strictly beats its best agricultural value (1/5): the cell is
non-agricultural. -/
def nonAgDominantArrays : SolveArrays :=
  { ncells := 1
  , nAgLus := 1
  , nNonAg := 1
  , agDry := fun _ _ => 1/5
  , agIrr := fun _ _ => 0
  , nonAg := fun _ _ => 7/10 }

/-- A sample of penalty-objective input data. -/
def penaltyDataSample : PenaltyData :=
  { ncms := 1
  , vVals := fun _ => 2
  , eVal := 3
  , wVals := fun _ => 5
  , nWaterRegions := 2
  , scaleDemand := 1
  , scaleGhg := 1
  , scaleWater := 1
  , basePrices := fun _ => 10
  , baseGhg := 100
  , baseWater := 200 }

/-- A solve outcome whose status is the Gurobi TIME_LIMIT code (9), not
OPTIMAL (2). -/
def solveOutcomeSample : SolveOutcome :=
  { status := 9
  , modelObjVal := 42
  , economyVal := 7
  , biodivVal := 11
  , penaltiesVal := 13
  , alpha := 1/2
  , beta := 1/4 }

/-- The all-zero biodiversity layer (empty eligible-cell index set). -/
def zeroLayer : ℕ → ℚ := fun _ => 0

/-! ## Helper lemmas -/

theorem le_foldl_max (a : ℚ) (l : List ℚ) : a ≤ l.foldl max a := by
induction l generalizing a with
| nil => exact le_refl a
| cons b bs ih => exact le_trans (le_max_left a b) (ih (max a b))

theorem mem_le_foldl_max {x : ℚ} (l : List ℚ) (a : ℚ) (hx : x ∈ l) :
    x ≤ l.foldl max a := by
induction l generalizing a with
| nil => cases hx
| cons b bs ih =>
  rcases List.mem_cons.mp hx with h | h
  · subst h
    exact le_trans (le_max_right a x) (le_foldl_max (max a x) bs)
  · exact ih (max a b) h

theorem foldl_max_mem (l : List ℚ) (a : ℚ) :
    l.foldl max a = a ∨ l.foldl max a ∈ l := by
induction l generalizing a with
| nil => exact Or.inl rfl
| cons b bs ih =>
  rcases ih (max a b) with h | h
  · rcases max_choice a b with h2 | h2
    · exact Or.inl (by rw [List.foldl_cons, h, h2])
    · exact Or.inr (by rw [List.foldl_cons, h, h2]; exact List.mem_cons_self b bs)
  · exact Or.inr (List.mem_cons_of_mem b h)

theorem le_aggMaxQ {l : List ℚ} {x : ℚ} (hx : x ∈ l) : x ≤ aggMaxQ l := by
cases l with
| nil => cases hx
| cons y ys =>
  rcases List.mem_cons.mp hx with h | h
  · subst h; exact le_foldl_max x ys
  · exact mem_le_foldl_max ys y h

theorem aggMaxQ_mem {l : List ℚ} (h : l ≠ []) : aggMaxQ l ∈ l := by
cases l with
| nil => exact absurd rfl h
| cons y ys =>
  rcases foldl_max_mem ys y with h2 | h2
  · rw [aggMaxQ, h2]; exact List.mem_cons_self y ys
  · exact List.mem_cons_of_mem y h2

theorem seqSteps_error_of_mem (steps : List (List ModelEvent × Option ConfigError))
    (h : ∃ st ∈ steps, st.2.isSome = true) : (seqSteps steps).2.isSome = true := by
induction steps with
| nil =>
  rcases h with ⟨st, h1, h2⟩
  cases h1
| cons st rest ih =>
  rcases h with ⟨st2, hmem, h2⟩
  rcases List.mem_cons.mp hmem with h3 | h3
  · subst h3
    unfold seqSteps
    cases hst : st2.2 with
    | some e => simp
    | none => rw [hst] at h2; simp at h2
  · unfold seqSteps
    cases hst : st.2 with
    | some e => simp
    | none => simpa using ih ⟨st2, h3, h2⟩

theorem seqSteps_events_cons_ne_nil (st : List ModelEvent × Option ConfigError)
    (rest : List (List ModelEvent × Option ConfigError)) (hne : st.1 ≠ []) :
    (seqSteps (st :: rest)).1 ≠ [] := by
unfold seqSteps
cases hst : st.2 with
| some e => simpa using hne
| none =>
  simp only []
  intro hcontra
  exact hne (List.append_eq_nil.mp hcontra).1

/-! ## Claim theorems -/

/-- C1 counterexample: on a one-cell input where nothing changed between
years, the update removes zero variables and zero cell-scoped constraints,
but — contrary to the claim — the aggregate constraint families are NOT
removed and recreated: `_update_constraints` returns immediately on an
empty changed-cell list.  Only the objective is recomposed. -/
theorem C1_counterexample :
    (∀ r, r < noChangeData.ncells → cellUnchanged noChangeData r = true) ∧
    (updateFormulationEffect noChangeData).removedVarCells = [] ∧
    (updateFormulationEffect noChangeData).removedCellConstraintCells = [] ∧
    (updateFormulationEffect noChangeData).aggregateFamiliesRebuilt = false ∧
    (updateFormulationEffect noChangeData).objectiveRebuilt = true := by
decide

/-- C1 (amended): if every cell's (land-use, land-management,
eligibility, irreversible-lower-bound) tuple is unchanged, then the update
removes zero decision variables and zero cell-scoped constraints, the
objective is still recomposed, but the aggregate constraint families are
not removed or recreated (they are rebuilt only when at least one cell
changed). -/
theorem C1_noop_update (d : UpdateData)
    (h : ∀ r, r < d.ncells → cellUnchanged d r = true) :
    (updateFormulationEffect d).removedVarCells = [] ∧
    (updateFormulationEffect d).removedCellConstraintCells = [] ∧
    (updateFormulationEffect d).aggregateFamiliesRebuilt = false ∧
    (updateFormulationEffect d).objectiveRebuilt = true := by
have hcells : updatedCells d = [] := by
  unfold updatedCells
  rw [List.filter_eq_nil_iff]
  intro r hr
  simp [h r (List.mem_range.mp hr)]
simp [updateFormulationEffect, updateConstraintsEffect, hcells]

/-- C1 witness: the no-op theorem applied at the concrete one-cell
unchanged input. -/
theorem C1_noop_update_witness :
    (updateFormulationEffect noChangeData).removedVarCells = [] ∧
    (updateFormulationEffect noChangeData).removedCellConstraintCells = [] ∧
    (updateFormulationEffect noChangeData).aggregateFamiliesRebuilt = false ∧
    (updateFormulationEffect noChangeData).objectiveRebuilt = true :=
C1_noop_update noChangeData (by decide)

/-- C3 counterexample: the soft water family is not two-sided — for a
region it consists of the single constraint `limit - aggregate <= W entry`
and does not contain `aggregate - limit <= W entry`; the point
(aggregate 10, limit 0, penalty 1) satisfies every constraint the code
builds for a soft water region yet violates the two-sided bound. -/
theorem C3_counterexample :
    waterRegionConstrForms softType = [LimitRel.devBelowLeP] ∧
    LimitRel.devAboveLeP ∉ waterRegionConstrForms softType ∧
    (∀ c ∈ waterRegionConstrForms softType, c.holdsAt 10 0 1) ∧
    ¬ LimitRel.devAboveLeP.holdsAt 10 0 1 := by
have hw : waterRegionConstrForms softType = [LimitRel.devBelowLeP] := by
  simp [waterRegionConstrForms, softType, hardType]
refine ⟨hw, ?_, ?_, ?_⟩
· rw [hw]
  simp
· rw [hw]
  intro c hc
  simp only [List.mem_singleton] at hc
  subst hc
  show (0 : ℚ) - 10 ≤ 1
  norm_num
· show ¬ ((10 : ℚ) - 0 ≤ 1)
  norm_num

/-- C3 (amended): GHG soft is the two-sided formulation bounding the single
penalty scalar E from both directions (equivalently an absolute-value
bound), and GHG hard is the single inequality `aggregate <= limit`; water
soft is ONE-SIDED, a single `limit - aggregate <= penalty` per region, and
water hard is the single inequality `aggregate >= limit`. -/
theorem C3_limit_constraint_shapes :
    ghgConstrForms softType = [LimitRel.devAboveLeP, LimitRel.devBelowLeP] ∧
    ghgConstrForms hardType = [LimitRel.aggLeLimit] ∧
    waterRegionConstrForms softType = [LimitRel.devBelowLeP] ∧
    waterRegionConstrForms hardType = [LimitRel.aggGeLimit] ∧
    (∀ a l p : ℚ,
      (LimitRel.devAboveLeP.holdsAt a l p ∧ LimitRel.devBelowLeP.holdsAt a l p)
        ↔ |a - l| ≤ p) := by
refine ⟨by decide, by decide, by decide, by decide, ?_⟩
intro a l p
rw [abs_sub_le_iff]
simp [LimitRel.holdsAt]

/-- C8 counterexample: a cell classified agricultural (best agricultural
value 3/5 beats best non-agricultural value 2/5) whose non-agricultural
entry in the RETURNED `non_ag_X_rk` array is 2/5, not zero: the returned
array is the raw solution, because the zeroed copy
`non_ag_X_rk_processed` is never returned. -/
theorem C8_counterexample :
    nonAgBool tieArrays 0 = false ∧
    returnedNonAgX tieArrays 0 0 = 2/5 ∧
    (2/5 : ℚ) ≠ 0 := by
refine ⟨?_, rfl, by norm_num⟩
norm_num [nonAgBool, maxAgCell, maxNonAgCell, tieArrays, aggMaxQ,
  List.range_succ, max_def]

/-- C8 (amended): for a non-agricultural cell every agricultural entry of
the returned `ag_X_mrj` array is zeroed, but the returned `non_ag_X_rk`
array always equals the raw solved values — agricultural cells keep their
non-agricultural entries. -/
theorem C8_branch_zeroing (a : SolveArrays) (m r j k : ℕ)
    (h : nonAgBool a r = true) :
    returnedAgX a m r j = 0 ∧
    returnedNonAgX a r k = a.nonAg r k := by
constructor
· unfold returnedAgX agXProcessed
  rw [h]
  simp
· rfl

/-- C8 witness: the amended theorem applied at the one-cell input whose
non-agricultural value dominates. -/
theorem C8_branch_zeroing_witness :
    returnedAgX nonAgDominantArrays 0 0 0 = 0 ∧
    returnedNonAgX nonAgDominantArrays 0 0 = nonAgDominantArrays.nonAg 0 0 :=
C8_branch_zeroing nonAgDominantArrays 0 0 0 0
  (by norm_num [nonAgBool, maxAgCell, maxNonAgCell, nonAgDominantArrays,
    aggMaxQ, List.range_succ, max_def])

/-- C9: the soft water build references `W[reg_idx - 1]` with W of length
equal to the number of water-region keys; every reference is in bounds
(without Python negative wrap) iff the key set is exactly the consecutive
integers 1..N; a key 0 silently shares the last W entry with key N, and a
key greater than N raises IndexError (the build fails). -/
theorem C9_water_region_key_indexing (S : Finset ℤ) (n : ℕ)
    (hcard : S.card = n) (hn : 1 ≤ n) :
    ((∀ k ∈ S, strictIdxOk k n) ↔ S = Finset.Icc (1 : ℤ) (n : ℤ)) ∧
    (waterSlot 0 n = some (n - 1) ∧ waterSlot (n : ℤ) n = some (n - 1)) ∧
    (∀ k : ℤ, (n : ℤ) < k → waterSlot k n = none) := by
refine ⟨⟨?_, ?_⟩, ⟨?_, ?_⟩, ?_⟩
· intro h
  apply Finset.eq_of_subset_of_card_le
  · intro k hk
    have hs := h k hk
    unfold strictIdxOk at hs
    rw [Finset.mem_Icc]
    omega
  · rw [hcard, Int.card_Icc]
    omega
· intro h k hk
  rw [h, Finset.mem_Icc] at hk
  unfold strictIdxOk
  omega
· unfold waterSlot pythonIdx
  rw [if_neg (by omega), if_pos (by constructor <;> omega)]
  congr 1
  omega
· unfold waterSlot pythonIdx
  rw [if_pos (by constructor <;> omega)]
  congr 1
  omega
· intro k hk
  unfold waterSlot pythonIdx
  rw [if_neg (by omega), if_neg (by omega)]

/-- C9 witness: the indexing theorem applied at the key set `[1, 2]` with
two regions. -/
theorem C9_water_region_key_indexing_witness :
    ((∀ k ∈ ({1, 2} : Finset ℤ), strictIdxOk k 2)
      ↔ ({1, 2} : Finset ℤ) = Finset.Icc (1 : ℤ) ((2 : ℕ) : ℤ)) ∧
    (waterSlot 0 2 = some (2 - 1) ∧ waterSlot ((2 : ℕ) : ℤ) 2 = some (2 - 1)) ∧
    (∀ k : ℤ, ((2 : ℕ) : ℤ) < k → waterSlot k 2 = none) :=
C9_water_region_key_indexing ({1, 2} : Finset ℤ) 2 (by decide) (by decide)

/-- C10: in the returned objective breakdown, the overall `ObjVal` entry
is `none` exactly when the solver status is not OPTIMAL, while the
per-component economy, biodiversity and penalty entries are always
computed from the stored expressions; the decoding is a total function
(no exception). -/
theorem C10_objval_entries (o : SolveOutcome) :
    ((objValEntries o).objVal = none ↔ o.status ≠ GRB_OPTIMAL) ∧
    (objValEntries o).objEconomy = o.economyVal * o.alpha ∧
    (objValEntries o).objBiodiversity = o.biodivVal * (1 - o.alpha) ∧
    (objValEntries o).objPenalties = o.penaltiesVal * o.beta := by
refine ⟨?_, rfl, rfl, rfl⟩
unfold objValEntries
by_cases h : o.status = GRB_OPTIMAL <;> simp [h]

/-- C10 witness: the breakdown theorem applied at a time-limited (status
9) outcome. -/
theorem C10_objval_entries_witness :
    ((objValEntries solveOutcomeSample).objVal = none
      ↔ solveOutcomeSample.status ≠ GRB_OPTIMAL) ∧
    (objValEntries solveOutcomeSample).objEconomy
      = solveOutcomeSample.economyVal * solveOutcomeSample.alpha ∧
    (objValEntries solveOutcomeSample).objBiodiversity
      = solveOutcomeSample.biodivVal * (1 - solveOutcomeSample.alpha) ∧
    (objValEntries solveOutcomeSample).objPenalties
      = solveOutcomeSample.penaltiesVal * solveOutcomeSample.beta :=
C10_objval_entries solveOutcomeSample

/-- C2 counterexample: with an unrecognised objective sense (and all
optional families disabled), `formulate` does raise a configuration error,
but only AFTER mutating the model: the recorded trace of mutations applied
before the raise is nonempty (variables and constraints were added). -/
theorem C2_counterexample :
    (badSenseSettings.objective ≠ "mincost"
      ∧ badSenseSettings.objective ≠ "maxprofit") ∧
    (formulateRun badSenseSettings smallFormulateData).2
      = some ConfigError.unknownObjective ∧
    (formulateRun badSenseSettings smallFormulateData).1 ≠ [] := by
decide

/-- C2 (amended): an unrecognised objective sense always raises a fatal
configuration error; an unrecognised water / GHG constraint type raises
one when the corresponding limit family is enabled (and, for water, at
least one region exists).  The error is NOT raised before model mutation:
variables have already been added when it raises (the trace of applied
mutations is nonempty, since the demand deviation vector V alone
contributes one mutation per commodity). -/
theorem C2_config_error_after_mutation (s : Settings) (d : FormulateData)
    (hcms : 1 ≤ d.ncms)
    (hbad :
      (s.objective ≠ "mincost" ∧ s.objective ≠ "maxprofit")
      ∨ (s.ghgEmissionsLimits ≠ "off" ∧ s.ghgConstraintType ≠ hardType
          ∧ s.ghgConstraintType ≠ softType)
      ∨ (s.waterLimits = "on" ∧ d.waterRescaleKeys ≠ []
          ∧ s.waterConstraintType ≠ hardType ∧ s.waterConstraintType ≠ softType)) :
    (formulateRun s d).2.isSome = true ∧ (formulateRun s d).1 ≠ [] := by
constructor
· unfold formulateRun
  apply seqSteps_error_of_mem
  rcases hbad with ⟨h1, h2⟩ | ⟨h1, h2, h3⟩ | ⟨h1, h2, h3, h4⟩
  · refine ⟨setupObjectiveStep s, ?_, ?_⟩
    · simp
    · simp [setupObjectiveStep, h1, h2]
  · refine ⟨addGhgEvents s, ?_, ?_⟩
    · simp
    · simp [addGhgEvents, h1, h2, h3]
  · refine ⟨addWaterEvents s d, ?_, ?_⟩
    · simp
    · unfold addWaterEvents
      rw [if_neg (by simp [h1])]
      cases hk : d.waterRescaleKeys with
      | nil => exact absurd hk h2
      | cons k ks =>
        unfold addWaterEventsLoop
        rw [if_neg (by simp [h3, h4])]
        simp
· unfold formulateRun
  apply seqSteps_events_cons_ne_nil
  apply List.ne_nil_of_length_pos
  unfold setupVarsEvents setupDeviationPenaltiesEvents
  simp only [List.length_append, List.length_map, List.length_range]
  omega

/-- C2 witness: the amended theorem applied at the unrecognised-sense
settings and the one-cell, one-commodity input. -/
theorem C2_config_error_after_mutation_witness :
    (formulateRun badSenseSettings smallFormulateData).2.isSome = true ∧
    (formulateRun badSenseSettings smallFormulateData).1 ≠ [] :=
C2_config_error_after_mutation badSenseSettings smallFormulateData (by decide)
  (Or.inl ⟨by decide, by decide⟩)

/-- C4 counterexample: a GBF8 species target whose eligible-cell index set
is empty is NOT skipped — the build still adds its constraint (and emits
no warning), unlike the GBF4 SNES / ECNES builds. -/
theorem C4_counterexample :
    gbf8Outcomes [([] : List ℕ)] = [TargetOutcome.constraintAdded] ∧
    TargetOutcome.constraintAdded ≠ TargetOutcome.skippedWarning := by
decide

/-- C4 (amended): a GBF4 SNES or ECNES target is skipped with a warning
exactly when its eligible-cell index set (cells where the layer is
positive) is empty, and then produces no constraint; a GBF8 target always
produces a constraint, with no emptiness check on its index set. -/
theorem C4_empty_target_handling (ncells : ℕ) (sLayers eLayers : List (ℕ → ℚ))
    (inds : List (List ℕ)) :
    (∀ i, i < sLayers.length →
      ((gbf4SnesOutcomes ncells sLayers).getD i TargetOutcome.constraintAdded
          = TargetOutcome.skippedWarning
        ↔ gbf4IndexSet ncells (sLayers.getD i (fun _ => 0)) = [])) ∧
    (∀ i, i < eLayers.length →
      ((gbf4EcnesOutcomes ncells eLayers).getD i TargetOutcome.constraintAdded
          = TargetOutcome.skippedWarning
        ↔ gbf4IndexSet ncells (eLayers.getD i (fun _ => 0)) = [])) ∧
    (∀ i, i < inds.length →
      (gbf8Outcomes inds).getD i TargetOutcome.skippedWarning
        = TargetOutcome.constraintAdded) := by
refine ⟨?_, ?_, ?_⟩
· intro i hi
  rw [List.getD_eq_getElem _ _ (by simpa [gbf4SnesOutcomes] using hi),
    List.getD_eq_getElem _ _ hi]
  unfold gbf4SnesOutcomes
  rw [List.getElem_map]
  split_ifs with h
  · simp [h]
  · simp [h]
· intro i hi
  rw [List.getD_eq_getElem _ _ (by simpa [gbf4EcnesOutcomes] using hi),
    List.getD_eq_getElem _ _ hi]
  unfold gbf4EcnesOutcomes
  rw [List.getElem_map]
  split_ifs with h
  · simp [h]
  · simp [h]
· intro i hi
  rw [List.getD_eq_getElem _ _ (by simpa [gbf8Outcomes] using hi)]
  unfold gbf8Outcomes
  rw [List.getElem_map]

/-- C4 witness: the amended theorem applied at one all-zero SNES layer,
no ECNES layers, and one GBF8 species with an empty index set. -/
theorem C4_empty_target_handling_witness :
    (∀ i, i < [zeroLayer].length →
      ((gbf4SnesOutcomes 1 [zeroLayer]).getD i TargetOutcome.constraintAdded
          = TargetOutcome.skippedWarning
        ↔ gbf4IndexSet 1 ([zeroLayer].getD i (fun _ => 0)) = [])) ∧
    (∀ i, i < ([] : List (ℕ → ℚ)).length →
      ((gbf4EcnesOutcomes 1 ([] : List (ℕ → ℚ))).getD i TargetOutcome.constraintAdded
          = TargetOutcome.skippedWarning
        ↔ gbf4IndexSet 1 (([] : List (ℕ → ℚ)).getD i (fun _ => 0)) = [])) ∧
    (∀ i, i < [([] : List ℕ)].length →
      (gbf8Outcomes [([] : List ℕ)]).getD i TargetOutcome.skippedWarning
        = TargetOutcome.constraintAdded) :=
C4_empty_target_handling 1 [zeroLayer] [] [([] : List ℕ)]

/-- C5: the penalty term is the weighted combination of the priced demand
deviations, the GHG deviation normalised by base-year emissions, and the
water deviations normalised by base-year water use and averaged across
regions, divided by the sum of the active weights; the GHG (resp. water)
component and its weight are zero, and the deviation values cannot affect
the penalty, whenever the corresponding target is not soft. -/
theorem C5_penalty_composition (s : Settings) (p : PenaltyData) :
    penaltyObjectives s p =
      (penaltyDemand s p + penaltyGhg s p + penaltyWater s p)
        / (s.solverWeightDemand + weightGhg s + weightWater s) ∧
    (s.ghgConstraintType ≠ softType →
      penaltyGhg s p = 0 ∧ weightGhg s = 0 ∧
      (∀ x : ℚ, penaltyObjectives s { p with eVal := x } = penaltyObjectives s p)) ∧
    (s.waterConstraintType ≠ softType →
      penaltyWater s p = 0 ∧ weightWater s = 0 ∧
      (∀ w : ℕ → ℚ, penaltyObjectives s { p with wVals := w } = penaltyObjectives s p)) ∧
    (s.ghgConstraintType = softType →
      penaltyGhg s p = p.eVal * p.scaleGhg * s.solverWeightGhg / p.baseGhg + 1) ∧
    (s.waterConstraintType = softType →
      penaltyWater s p =
        (((List.range p.nWaterRegions).map fun i => p.wVals i).sum
          * p.scaleWater * s.solverWeightWater / p.baseWater + 1)
          / (p.nWaterRegions : ℚ)) := by
refine ⟨rfl, ?_, ?_, ?_, ?_⟩
· intro h
  refine ⟨by simp [penaltyGhg, h], by simp [weightGhg, h], ?_⟩
  intro x
  simp [penaltyObjectives, penaltyDemand, penaltyGhg, penaltyWater,
    weightGhg, weightWater, h]
· intro h
  refine ⟨by simp [penaltyWater, h], by simp [weightWater, h], ?_⟩
  intro w
  simp [penaltyObjectives, penaltyDemand, penaltyGhg, penaltyWater,
    weightGhg, weightWater, h]
· intro h
  simp [penaltyGhg, h]
· intro h
  simp [penaltyWater, h]

/-- C5 witness: the composition theorem applied at soft GHG and water
settings and sample penalty data. -/
theorem C5_penalty_composition_witness :
    penaltyObjectives softSettings penaltyDataSample =
      (penaltyDemand softSettings penaltyDataSample
        + penaltyGhg softSettings penaltyDataSample
        + penaltyWater softSettings penaltyDataSample)
        / (softSettings.solverWeightDemand + weightGhg softSettings
            + weightWater softSettings) ∧
    (softSettings.ghgConstraintType ≠ softType →
      penaltyGhg softSettings penaltyDataSample = 0 ∧
      weightGhg softSettings = 0 ∧
      (∀ x : ℚ, penaltyObjectives softSettings { penaltyDataSample with eVal := x }
        = penaltyObjectives softSettings penaltyDataSample)) ∧
    (softSettings.waterConstraintType ≠ softType →
      penaltyWater softSettings penaltyDataSample = 0 ∧
      weightWater softSettings = 0 ∧
      (∀ w : ℕ → ℚ, penaltyObjectives softSettings { penaltyDataSample with wVals := w }
        = penaltyObjectives softSettings penaltyDataSample)) ∧
    (softSettings.ghgConstraintType = softType →
      penaltyGhg softSettings penaltyDataSample =
        penaltyDataSample.eVal * penaltyDataSample.scaleGhg
          * softSettings.solverWeightGhg / penaltyDataSample.baseGhg + 1) ∧
    (softSettings.waterConstraintType = softType →
      penaltyWater softSettings penaltyDataSample =
        (((List.range penaltyDataSample.nWaterRegions).map
            fun i => penaltyDataSample.wVals i).sum
          * penaltyDataSample.scaleWater * softSettings.solverWeightWater
          / penaltyDataSample.baseWater + 1)
          / (penaltyDataSample.nWaterRegions : ℚ)) :=
C5_penalty_composition softSettings penaltyDataSample

/-- C6 counterexample: at an input whose total production of commodity 0
is zero and whose rescaled target is 1 (a shortfall), NO deviation value
is feasible: the family `production - target == V, V >= 0` makes
shortfall infeasible rather than penalised. -/
theorem C6_counterexample :
    totalQc smallDemandData 0 = 0 ∧
    ¬ ∃ v : ℚ, demandFamilyFeasible smallDemandData 0 1 v := by
have h0 : totalQc smallDemandData 0 = 0 := by
  simp [totalQc, agQc, agManQc, nonAgQc, agQp, smallDemandData, List.range_succ]
refine ⟨h0, ?_⟩
intro hex
obtain ⟨v, hfeas⟩ := hex
unfold demandFamilyFeasible demandPenaltyConstraint deviationVarLb at hfeas
obtain ⟨hc, hv⟩ := hfeas
rw [h0] at hc
linarith

/-- C6 (amended): per commodity c the constraint states
`totalProduction(c) - target(c) == deviation(c)` with the deviation
bounded below by 0, total production being the sum of the agricultural,
management-option and non-agricultural contributions mapped through the
incidence matrices; consequently the family is feasible exactly when
production meets or exceeds the target, and the deviation equals the
surplus — shortfall is infeasible (not penalised) and surplus is what the
demand penalty prices. -/
theorem C6_demand_constraint_semantics (d : DemandData) (c : ℕ) (target v : ℚ) :
    totalQc d c = agQc d c + agManQc d c + nonAgQc d c ∧
    (demandFamilyFeasible d c target v ↔
      (v = totalQc d c - target ∧ target ≤ totalQc d c)) := by
refine ⟨rfl, ?_⟩
unfold demandFamilyFeasible demandPenaltyConstraint deviationVarLb
constructor
· rintro ⟨h1, h2⟩
  constructor
  · linarith
  · linarith
· rintro ⟨h1, h2⟩
  constructor
  · linarith
  · linarith

/-- C6 witness: the semantics theorem applied at the zero-production
input with target 0 and deviation 0. -/
theorem C6_demand_constraint_semantics_witness :
    totalQc smallDemandData 0
      = agQc smallDemandData 0 + agManQc smallDemandData 0 + nonAgQc smallDemandData 0 ∧
    (demandFamilyFeasible smallDemandData 0 0 0 ↔
      (0 = totalQc smallDemandData 0 - 0 ∧ 0 ≤ totalQc smallDemandData 0)) :=
C6_demand_constraint_semantics smallDemandData 0 0 0

/-- C7: a cell is classified non-agricultural exactly when some
non-agricultural value for it strictly exceeds every agricultural value
across both managements and all agricultural land uses (equivalently the
strict max comparison the code performs); a non-agricultural cell receives
land-use code equal to the first arg-max non-agricultural use plus the
base constant, that index is in range and attains the best
non-agricultural value, and the cell's land management is dry (0). -/
theorem C7_decode_nonag_classification (a : SolveArrays) (base r : ℕ)
    (hAg : 1 ≤ a.nAgLus) (hNonAg : 1 ≤ a.nNonAg) :
    (nonAgBool a r = true ↔
      ∃ k, k < a.nNonAg ∧
        (∀ j, j < a.nAgLus → a.agDry r j < a.nonAg r k) ∧
        (∀ j, j < a.nAgLus → a.agIrr r j < a.nonAg r k)) ∧
    (nonAgBool a r = true →
      decodeLumap a base r =
        argmaxFirst ((List.range a.nNonAg).map fun k => a.nonAg r k) + base ∧
      argmaxFirst ((List.range a.nNonAg).map fun k => a.nonAg r k) < a.nNonAg ∧
      a.nonAg r (argmaxFirst ((List.range a.nNonAg).map fun k => a.nonAg r k))
        = maxNonAgCell a r ∧
      decodeLmmap a r = 0) := by
have hnaNe : ((List.range a.nNonAg).map fun k => a.nonAg r k) ≠ [] := by
  intro hc
  have := congrArg List.length hc
  simp at this
  omega
have hagNe : (((List.range a.nAgLus).map fun j => a.agDry r j)
    ++ ((List.range a.nAgLus).map fun j => a.agIrr r j)) ≠ [] := by
  intro hc
  have := congrArg List.length hc
  simp at this
  omega
constructor
· constructor
  · intro h
    have hlt : maxAgCell a r < maxNonAgCell a r := of_decide_eq_true h
    have hmem : aggMaxQ ((List.range a.nNonAg).map fun k => a.nonAg r k)
        ∈ (List.range a.nNonAg).map fun k => a.nonAg r k := aggMaxQ_mem hnaNe
    obtain ⟨k, hkmem, hkeq⟩ := List.mem_map.mp hmem
    refine ⟨k, List.mem_range.mp hkmem, ?_, ?_⟩ <;> intro j hj
    · have hm : a.agDry r j ∈ (((List.range a.nAgLus).map fun j => a.agDry r j)
          ++ ((List.range a.nAgLus).map fun j => a.agIrr r j)) :=
        List.mem_append_left _ (List.mem_map_of_mem _ (List.mem_range.mpr hj))
      calc a.agDry r j ≤ maxAgCell a r := le_aggMaxQ hm
        _ < maxNonAgCell a r := hlt
        _ = a.nonAg r k := hkeq.symm
    · have hm : a.agIrr r j ∈ (((List.range a.nAgLus).map fun j => a.agDry r j)
          ++ ((List.range a.nAgLus).map fun j => a.agIrr r j)) :=
        List.mem_append_right _ (List.mem_map_of_mem _ (List.mem_range.mpr hj))
      calc a.agIrr r j ≤ maxAgCell a r := le_aggMaxQ hm
        _ < maxNonAgCell a r := hlt
        _ = a.nonAg r k := hkeq.symm
  · rintro ⟨k, hk, hdry, hirr⟩
    apply decide_eq_true
    have h1 : maxAgCell a r ∈ (((List.range a.nAgLus).map fun j => a.agDry r j)
        ++ ((List.range a.nAgLus).map fun j => a.agIrr r j)) := aggMaxQ_mem hagNe
    have h2 : maxAgCell a r < a.nonAg r k := by
      rcases List.mem_append.mp h1 with hm | hm
      · obtain ⟨j, hjmem, hjeq⟩ := List.mem_map.mp hm
        rw [← hjeq]
        exact hdry j (List.mem_range.mp hjmem)
      · obtain ⟨j, hjmem, hjeq⟩ := List.mem_map.mp hm
        rw [← hjeq]
        exact hirr j (List.mem_range.mp hjmem)
    have h3 : a.nonAg r k ≤ maxNonAgCell a r :=
      le_aggMaxQ (List.mem_map_of_mem _ (List.mem_range.mpr hk))
    exact lt_of_lt_of_le h2 h3
· intro h
  have hmem : aggMaxQ ((List.range a.nNonAg).map fun k => a.nonAg r k)
      ∈ (List.range a.nNonAg).map fun k => a.nonAg r k := aggMaxQ_mem hnaNe
  have hidx := List.indexOf_lt_length.mpr hmem
  refine ⟨by simp [decodeLumap, h], ?_, ?_, by simp [decodeLmmap, h]⟩
  · have := hidx
    simp only [List.length_map, List.length_range] at this
    exact this
  · have hval := List.getElem_indexOf hidx
    rw [List.getElem_map, List.getElem_range] at hval
    exact hval

/-- C7 witness: the classification theorem applied at the one-cell input
whose non-agricultural value dominates, with base code 100. -/
theorem C7_decode_nonag_classification_witness :
    (nonAgBool nonAgDominantArrays 0 = true ↔
      ∃ k, k < nonAgDominantArrays.nNonAg ∧
        (∀ j, j < nonAgDominantArrays.nAgLus →
          nonAgDominantArrays.agDry 0 j < nonAgDominantArrays.nonAg 0 k) ∧
        (∀ j, j < nonAgDominantArrays.nAgLus →
          nonAgDominantArrays.agIrr 0 j < nonAgDominantArrays.nonAg 0 k)) ∧
    (nonAgBool nonAgDominantArrays 0 = true →
      decodeLumap nonAgDominantArrays 100 0 =
        argmaxFirst ((List.range nonAgDominantArrays.nNonAg).map
          fun k => nonAgDominantArrays.nonAg 0 k) + 100 ∧
      argmaxFirst ((List.range nonAgDominantArrays.nNonAg).map
        fun k => nonAgDominantArrays.nonAg 0 k) < nonAgDominantArrays.nNonAg ∧
      nonAgDominantArrays.nonAg 0 (argmaxFirst
        ((List.range nonAgDominantArrays.nNonAg).map
          fun k => nonAgDominantArrays.nonAg 0 k))
        = maxNonAgCell nonAgDominantArrays 0 ∧
      decodeLmmap nonAgDominantArrays 0 = 0) :=
C7_decode_nonag_classification nonAgDominantArrays 100 0 (by decide) (by decide)

end Luto2
